import Mathlib

/-!
Verification of `geotif2envi.py` (TIMESAT/geotif2envi), a batch converter
from GeoTIFF to ENVI raster format.

The Python program is shallowly embedded below.  Pure string manipulation
(`re.search` with the fixed pattern `\d{8}` set in `main`, `strptime` with
format `%Y%m%d`, `os.path.basename`, `os.path.splitext`, `os.path.join`,
`str.splitlines`) is translated to executable Lean functions on `String` /
`List Char`.  The GDAL library calls (`gdal.Open`, `gdal.GetDriverByName`,
`driver.Create`) are external resources; they are modelled by an
environment `GdalEnv` of success/failure oracles, and the loop keeps an
event log (`opened`, `created`) of the library calls it makes.  The band
copying loop (source lines 92-96) only moves pixel data between the two
externally owned datasets and has no effect on any value the program
returns or writes, so it contributes no observable field here.

Machine-level caveats of the embedding, recorded once:
* the regex class `\d` is modelled as the ASCII digits `0`-`9` (file names
  in scope are ASCII);
* `datetime.strptime(s, "%Y%m%d")` on a string of exactly eight digits
  succeeds precisely when the first four digits give a year `>= 1` and the
  remaining two-digit month and day form a valid Gregorian calendar date;
  every other string raises `ValueError`.  `strptimeYmd` below implements
  exactly that characterisation;
* Python text-mode reading performs universal-newline translation, so the
  embedded `read_file_list` takes the file *content* as a string and
  splits it; the file-system access itself is part of `MainEnv`;
* exception messages are rendered by `errMsg` following the f-strings of
  the source (list/quote punctuation of Python `repr` is simplified, no
  claim depends on it).
-/

namespace G2E

/-- The distinct failure kinds raised inside the batch (source lines 34,
37, 50, 68, 80, 85). -/
inductive ConvError where
  | dateFormatNotFound (filename : String)
  | invalidDate (dateStr : String)
  | unsupportedDtype (dtype : String)
  | sourceOpenFailure (path : String)
  | driverUnavailable
  | createFailure (path : String)
deriving DecidableEq

instance exceptDecEq {ε α : Type} [DecidableEq ε] [DecidableEq α] :
    DecidableEq (Except ε α)
  | .ok a, .ok b => decidable_of_iff (a = b) (by simp)
  | .error a, .error b => decidable_of_iff (a = b) (by simp)
  | .ok _, .error _ => isFalse (fun h => Except.noConfusion h)
  | .error _, .ok _ => isFalse (fun h => Except.noConfusion h)

/-- `\d` of the fixed pattern, modelled as an ASCII digit. -/
def isDigitChar (c : Char) : Bool :=
  decide (48 ≤ c.toNat) && decide (c.toNat ≤ 57)

/-- The window of eight characters of `cs` starting at index `i` exists
and consists of digits. -/
def digitsWindow (cs : List Char) (i : Nat) : Bool :=
  (((cs.drop i).take 8).length == 8) && ((cs.drop i).take 8).all isDigitChar

/-- Leftmost-first scan of `re.search` for the pattern of eight digits:
return the first eight-digit window, scanning character positions from the
left. -/
def searchEightDigits : List Char → Option (List Char)
  | [] => none
  | c :: rest =>
    if digitsWindow (c :: rest) 0 then some ((c :: rest).take 8)
    else searchEightDigits rest

/-- `re.search(r"\d{8}", s)` returning the matched text (source line 32;
the pattern is fixed at source line 125). -/
def reSearch8 (s : String) : Option String :=
  (searchEightDigits s.toList).map fun w => String.mk w

/-- Numeric value of an ASCII digit character. -/
def charToDigit (c : Char) : Nat := c.toNat - 48

/-- Decimal value of a digit string. -/
def digitsToNat (cs : List Char) : Nat :=
  cs.foldl (fun a c => 10 * a + charToDigit c) 0

/-- Gregorian leap-year rule used by `datetime`. -/
def isLeapYear (y : Nat) : Bool :=
  (y % 4 == 0) && ((y % 100 != 0) || (y % 400 == 0))

/-- Length of a month in the proleptic Gregorian calendar of `datetime`. -/
def daysInMonth (y m : Nat) : Nat :=
  if m = 2 then (if isLeapYear y then 29 else 28)
  else if m = 4 ∨ m = 6 ∨ m = 9 ∨ m = 11 then 30
  else 31

/-- A parsed calendar date. -/
structure Ymd where
  year : Nat
  month : Nat
  day : Nat
deriving DecidableEq

/-- `datetime.strptime(s, "%Y%m%d")` (source line 37): succeeds exactly on
strings of eight digits whose fields form a valid date (see the header
comment); any failure raises `ValueError`, modelled as `none`. -/
def strptimeYmd (s : String) : Option Ymd :=
  let cs := s.toList
  if (cs.length == 8) && cs.all isDigitChar then
    let y := digitsToNat (cs.take 4)
    let m := digitsToNat ((cs.drop 4).take 2)
    let d := digitsToNat (cs.drop 6)
    if 1 ≤ y ∧ 1 ≤ m ∧ m ≤ 12 ∧ 1 ≤ d ∧ d ≤ daysInMonth y m then
      some ⟨y, m, d⟩
    else none
  else none

/-- Days in the year before the first of the given month, not counting a
leap day. -/
def monthOffsetTable (m : Nat) : Nat :=
  if m = 1 then 0 else if m = 2 then 31 else if m = 3 then 59
  else if m = 4 then 90 else if m = 5 then 120 else if m = 6 then 151
  else if m = 7 then 181 else if m = 8 then 212 else if m = 9 then 243
  else if m = 10 then 273 else if m = 11 then 304 else if m = 12 then 334
  else 0

/-- `date_obj.timetuple().tm_yday` (source line 39): ordinal day of the
year. -/
def tm_yday (d : Ymd) : Nat :=
  d.day + monthOffsetTable d.month +
    (if 3 ≤ d.month ∧ isLeapYear d.year then 1 else 0)

/-- Python `str(n)` for a natural number, as produced by the f-string
`f"{date_obj.year}"` (source line 40): decimal digits, no padding.  The
explicit ladder covers every value reachable from a four-digit year; the
final branch falls back to the library renderer. -/
def pyNatRepr (n : Nat) : String :=
  if n < 10 then String.mk [Nat.digitChar n]
  else if n < 100 then String.mk [Nat.digitChar (n / 10), Nat.digitChar (n % 10)]
  else if n < 1000 then
    String.mk [Nat.digitChar (n / 100), Nat.digitChar (n / 10 % 10), Nat.digitChar (n % 10)]
  else if n < 10000 then
    String.mk [Nat.digitChar (n / 1000), Nat.digitChar (n / 100 % 10),
      Nat.digitChar (n / 10 % 10), Nat.digitChar (n % 10)]
  else Nat.repr n

/-- Python `f"{n:03d}"` (source line 40): decimal digits zero-padded on
the left to width three. -/
def pad3 (n : Nat) : String :=
  if n < 10 then "00" ++ pyNatRepr n
  else if n < 100 then "0" ++ pyNatRepr n
  else pyNatRepr n

/-- `extract_date_from_filename` (source lines 30-40), with the date
format fixed to `r"\d{8}"` as in `main` (source line 125). -/
def extract_date_from_filename (filename : String) : Except ConvError String :=
  match reSearch8 filename with
  | none => .error (.dateFormatNotFound filename)
  | some date_str =>
    match strptimeYmd date_str with
    | none => .error (.invalidDate date_str)
    | some date_obj => .ok (pyNatRepr date_obj.year ++ pad3 (tm_yday date_obj))

/-- `os.path.basename` on the chars of a POSIX path: everything after the
last separator. -/
def basenameChars (cs : List Char) : List Char :=
  cs.foldl (fun acc c => if c = '/' then [] else acc ++ [c]) []

/-- `os.path.basename` (source lines 57 and 61). -/
def basename (p : String) : String := String.mk (basenameChars p.toList)

/-- Index of the last `.` in a character list, if any. -/
def lastDotIdx : List Char → Option Nat
  | [] => none
  | c :: rest =>
    match lastDotIdx rest with
    | some i => some (i + 1)
    | none => if c = '.' then some 0 else none

/-- Root component of `os.path.splitext` on a path component without
separators (source line 61): split at the last dot, except when every
character before that dot is itself a dot (CPython `genericpath._splitext`
treats leading dots as part of the root). -/
def splitextRoot (b : String) : String :=
  match lastDotIdx b.toList with
  | none => b
  | some i =>
    if (b.toList.take i).any (fun c => c ≠ '.') then String.mk (b.toList.take i)
    else b

/-- First character test used by `os.path.join`. -/
def strHeadIs (s : String) (c : Char) : Bool :=
  match s.toList with
  | [] => false
  | x :: _ => x = c

/-- Last character test used by `os.path.join`. -/
def strLastIs (s : String) (c : Char) : Bool :=
  match s.toList.getLast? with
  | some x => x = c
  | none => false

/-- `os.path.join(folder, name)` for POSIX paths (source lines 62,
142-143). -/
def pathJoin (folder name : String) : String :=
  if strHeadIs name '/' then name
  else if folder = "" then folder ++ name
  else if strLastIs folder '/' then folder ++ name
  else folder ++ "/" ++ name

/-- Destination path computed at source lines 61-62: output directory
joined with the source basename whose extension is replaced by `.img`. -/
def destPath (folder p : String) : String :=
  pathJoin folder (splitextRoot (basename p) ++ ".img")

/-- The keys of `dtype_map` (source lines 43-47). -/
def supportedDtypes : List String := ["float32", "int16", "uint8"]

/-- Success/failure oracles for the three GDAL calls the loop makes:
`gdal.Open` (line 66), `gdal.GetDriverByName("ENVI")` (line 78) and
`driver.Create` (line 83).  `true` means the call returns a live object,
`false` that it returns `None`. -/
structure GdalEnv where
  openOk : String → Bool
  driverOk : Bool
  createOk : String → Bool

/-- The local accumulators of `geotiff_to_envi` (`output_files`,
`time_vector`, lines 52-53) together with the event log of GDAL calls
performed so far. -/
structure LoopState where
  output_files : List String
  time_vector : List String
  opened : List String
  created : List String
deriving DecidableEq

/-- The state at entry of `geotiff_to_envi` (lines 52-53). -/
def initState : LoopState := ⟨[], [], [], []⟩

/-- One iteration of the loop of `geotiff_to_envi` (source lines 55-100),
in source statement order: extract the date from the basename (line 57)
and append it (line 58), build the destination path (lines 61-62) and
append it (line 63), then open the source (line 66), look up the driver
(line 78) and create the destination (line 83), raising at the first
failed call.  A raise is returned as `some` error next to the locals as
they stood when the exception left the loop. -/
def processFile (env : GdalEnv) (output_folder : String) (st : LoopState)
    (geotiff_path : String) : LoopState × Option ConvError :=
  match extract_date_from_filename (basename geotiff_path) with
  | .error e => (st, some e)
  | .ok date_str =>
    let st1 := { st with time_vector := st.time_vector ++ [date_str] }
    let output_path := pathJoin output_folder (splitextRoot (basename geotiff_path) ++ ".img")
    let st2 := { st1 with output_files := st1.output_files ++ [output_path] }
    let st3 := { st2 with opened := st2.opened ++ [geotiff_path] }
    if env.openOk geotiff_path then
      if env.driverOk then
        if env.createOk output_path then
          ({ st3 with created := st3.created ++ [output_path] }, none)
        else (st3, some (.createFailure output_path))
      else (st3, some .driverUnavailable)
    else (st3, some (.sourceOpenFailure geotiff_path))

/-- The `for` loop of `geotiff_to_envi` (source lines 55-100): process the
paths in order, stopping at the first raised error. -/
def runLoop (env : GdalEnv) (folder : String) :
    LoopState → List String → LoopState × Option ConvError
  | st, [] => (st, none)
  | st, p :: rest =>
    match processFile env folder st p with
    | (st1, none) => runLoop env folder st1 rest
    | (st1, some e) => (st1, some e)

/-- `geotiff_to_envi` (source lines 42-102) as a trace: the dtype gate of
lines 49-50 runs before the loop; the result carries the final locals and
event log next to the raised error, if any. -/
def geotiff_to_envi_run (env : GdalEnv) (file_list : List String)
    (output_folder output_dtype : String) : LoopState × Option ConvError :=
  if output_dtype ∈ supportedDtypes then runLoop env output_folder initState file_list
  else (initState, some (.unsupportedDtype output_dtype))

/-- `geotiff_to_envi` as observed by its caller: either the raised
exception, or the pair `(output_files, time_vector)` returned at source
line 102. -/
def geotiff_to_envi (env : GdalEnv) (file_list : List String)
    (output_folder output_dtype : String) : Except ConvError (List String × List String) :=
  match geotiff_to_envi_run env file_list output_folder output_dtype with
  | (st, none) => .ok (st.output_files, st.time_vector)
  | (_, some e) => .error e

/-- Line-boundary characters of `str.splitlines`. -/
def isLineBoundary (c : Char) : Bool :=
  c = '\n' || c = '\r' || c = '\x0b' || c = '\x0c' ||
  c = '\x1c' || c = '\x1d' || c = '\x1e' || c = '\x85' ||
  c = '\u2028' || c = '\u2029'

/-- Worker of `str.splitlines`: `acc` holds the current line reversed; a
`\r\n` pair is one boundary; a trailing boundary opens no further empty
line. -/
def splitlinesAux : List Char → List Char → List String
  | [], acc => if acc.isEmpty then [] else [String.mk acc.reverse]
  | c :: rest, acc =>
    if isLineBoundary c then
      match rest with
      | [] => [String.mk acc.reverse]
      | d :: rest2 =>
        if c = '\r' ∧ d = '\n' then String.mk acc.reverse :: splitlinesAux rest2 []
        else String.mk acc.reverse :: splitlinesAux (d :: rest2) []
    else splitlinesAux rest (c :: acc)

/-- `str.splitlines` (source line 106). -/
def pySplitlines (s : String) : List String := splitlinesAux s.toList []

/-- `read_file_list` (source lines 104-107), applied to the content of the
list file: `file.read().splitlines()`. -/
def read_file_list (content : String) : List String := pySplitlines content

/-- `save_list_to_file` (source lines 109-112), as the content written:
each item followed by a newline, in order. -/
def save_list_to_file (data_list : List String) : String :=
  data_list.foldr (fun item acc => item ++ "\n" ++ acc) ""

/-- The Python `str(e)` of each raised exception, following the f-strings
of the source. -/
def errMsg : ConvError → String
  | .dateFormatNotFound filename => "Date format not found in filename: " ++ filename
  | .invalidDate date_str => "time data " ++ date_str ++ " does not match format %Y%m%d"
  | .unsupportedDtype dtype =>
      "Unsupported data type: " ++ dtype ++ ". Supported types are: float32, int16, uint8"
  | .sourceOpenFailure path => "Unable to open GeoTIFF file: " ++ path
  | .driverUnavailable => "ENVI driver not available"
  | .createFailure path => "Unable to create ENVI file: " ++ path

/-- The world `main` runs in: the content of the file-list file (`none`
models `FileNotFoundError` on `open`) and the GDAL oracles. -/
structure MainEnv where
  fileListContent : Option String
  gdal : GdalEnv

/-- What a run of `main` leaves behind: the lines printed and, for each
manifest, the `(path, content)` written, or `none` when the file was never
created. -/
structure MainResult where
  printed : List String
  wroteFileList : Option (String × String)
  wroteTimeVector : Option (String × String)

/-- `main` (source lines 114-149) after argument parsing: read the list
file (lines 128-132), convert (lines 135-139), and only on success write
the two manifests (lines 141-146) and print the closing messages.  Both
`except` arms print a diagnostic and `return`, so `main` never propagates
an exception; accordingly the embedding is a total function into
`MainResult`. -/
def main (menv : MainEnv) (file_list_path output_folder output_dtype : String) :
    MainResult :=
  match menv.fileListContent with
  | none =>
    { printed := ["Error: The file list at " ++ file_list_path ++ " was not found. Exiting."]
      wroteFileList := none
      wroteTimeVector := none }
  | some content =>
    match geotiff_to_envi menv.gdal (read_file_list content) output_folder output_dtype with
    | .error e =>
      { printed := ["An error occurred during conversion: " ++ errMsg e]
        wroteFileList := none
        wroteTimeVector := none }
    | .ok (output_files, time_vector) =>
      { printed := ["Output Files saved to: " ++ pathJoin output_folder "ENVI_file_list.txt",
                    "Time Vector saved to: " ++ pathJoin output_folder "time_vector.txt"]
        wroteFileList := some (pathJoin output_folder "ENVI_file_list.txt",
                               save_list_to_file output_files)
        wroteTimeVector := some (pathJoin output_folder "time_vector.txt",
                                 save_list_to_file time_vector) }

/-- The date token a path contributes when its extraction succeeds. -/
def dateTokenOf (p : String) : String :=
  match extract_date_from_filename (basename p) with
  | .ok t => t
  | .error _ => ""

/-- Spec-side reading of the date-extraction sentence: `ds` is the first
substring of `s` matching the 8-digit pattern, i.e. an all-digit window of
eight characters starting at a position before which no such window
starts. -/
def isFirstEightDigitSubstring (s ds : String) : Prop :=
  ∃ i, digitsWindow s.toList i = true ∧
    ds = String.mk ((s.toList.drop i).take 8) ∧
    ∀ j, j < i → digitsWindow s.toList j = false

/-- A GDAL world in which every call succeeds. -/
def envAllOk : GdalEnv := ⟨fun _ => true, true, fun _ => true⟩

/-- A GDAL world in which `gdal.Open` always returns `None`. -/
def envOpenFail : GdalEnv := ⟨fun _ => false, true, fun _ => true⟩

lemma processFile_extract_error (env : GdalEnv) (folder : String) (st : LoopState)
    (p : String) (e : ConvError)
    (h : extract_date_from_filename (basename p) = .error e) :
    processFile env folder st p = (st, some e) := by
  simp [processFile, h]

lemma processFile_extract_ok_fields (env : GdalEnv) (folder : String) (st : LoopState)
    (p t : String) (h : extract_date_from_filename (basename p) = .ok t) :
    (processFile env folder st p).1.time_vector = st.time_vector ++ [t] ∧
    (processFile env folder st p).1.output_files = st.output_files ++ [destPath folder p] := by
  cases hopen : env.openOk p <;>
    cases hdrv : env.driverOk <;>
      cases hcrt : env.createOk (pathJoin folder (splitextRoot (basename p) ++ ".img")) <;>
        simp [processFile, h, hopen, hdrv, hcrt, destPath]

lemma processFile_ok (env : GdalEnv) (folder : String) (st st2 : LoopState) (p : String)
    (h : processFile env folder st p = (st2, none)) :
    ∃ t, extract_date_from_filename (basename p) = .ok t ∧
      st2 = { output_files := st.output_files ++ [destPath folder p]
              time_vector := st.time_vector ++ [t]
              opened := st.opened ++ [p]
              created := st.created ++ [destPath folder p] } := by
  cases hx : extract_date_from_filename (basename p) with
  | error e => rw [processFile_extract_error env folder st p e hx] at h; simp at h
  | ok t =>
    refine ⟨t, rfl, ?_⟩
    cases hopen : env.openOk p <;>
      cases hdrv : env.driverOk <;>
        cases hcrt : env.createOk (pathJoin folder (splitextRoot (basename p) ++ ".img")) <;>
          (simp [processFile, hx, hopen, hdrv, hcrt, destPath] at h;
            try simp [← h, destPath])

lemma runLoop_ok (env : GdalEnv) (folder : String) :
    ∀ (files : List String) (st st2 : LoopState),
      runLoop env folder st files = (st2, none) →
      st2.output_files = st.output_files ++ files.map (destPath folder) ∧
      st2.time_vector = st.time_vector ++ files.map dateTokenOf ∧
      st2.opened = st.opened ++ files ∧
      st2.created = st.created ++ files.map (destPath folder) ∧
      ∀ p ∈ files, ∃ t, extract_date_from_filename (basename p) = .ok t := by
  intro files
  induction files with
  | nil => intro st st2 h; simp [runLoop] at h; simp [h]
  | cons p rest ih =>
    intro st st2 h
    rw [runLoop] at h
    cases hp : processFile env folder st p with
    | mk st1 oe =>
      cases oe with
      | none =>
        rw [hp] at h
        obtain ⟨t, hxt, hst1⟩ := processFile_ok env folder st st1 p hp
        obtain ⟨h1, h2, h3, h4, h5⟩ := ih st1 st2 h
        subst hst1
        refine ⟨?_, ?_, ?_, ?_, ?_⟩
        · simp [h1, List.append_assoc]
        · simp [h2, List.append_assoc, dateTokenOf, hxt]
        · simp [h3, List.append_assoc]
        · simp [h4, List.append_assoc]
        · intro q hq
          rcases List.mem_cons.mp hq with hq | hq
          · exact ⟨t, hq ▸ hxt⟩
          · exact h5 q hq
      | some e => rw [hp] at h; simp at h

lemma geotiff_run_ok (env : GdalEnv) (files : List String) (folder dtype : String)
    (st : LoopState) (h : geotiff_to_envi_run env files folder dtype = (st, none)) :
    dtype ∈ supportedDtypes ∧
    st.output_files = files.map (destPath folder) ∧
    st.time_vector = files.map dateTokenOf ∧
    st.opened = files ∧
    st.created = files.map (destPath folder) ∧
    ∀ p ∈ files, ∃ t, extract_date_from_filename (basename p) = .ok t := by
  unfold geotiff_to_envi_run at h
  by_cases hd : dtype ∈ supportedDtypes
  · rw [if_pos hd] at h
    obtain ⟨h1, h2, h3, h4, h5⟩ := runLoop_ok env folder files initState st h
    simp only [initState, List.nil_append] at h1 h2 h3 h4
    exact ⟨hd, h1, h2, h3, h4, h5⟩
  · rw [if_neg hd] at h; simp at h

lemma geotiff_to_envi_ok (env : GdalEnv) (files : List String) (folder dtype : String)
    (outs times : List String)
    (h : geotiff_to_envi env files folder dtype = .ok (outs, times)) :
    outs = files.map (destPath folder) ∧
    times = files.map dateTokenOf ∧
    ∀ p ∈ files, ∃ t, extract_date_from_filename (basename p) = .ok t := by
  unfold geotiff_to_envi at h
  cases hr : geotiff_to_envi_run env files folder dtype with
  | mk st oe =>
    cases oe with
    | none =>
      rw [hr] at h
      simp only [Except.ok.injEq, Prod.mk.injEq] at h
      obtain ⟨_, h2, h3, _, _, h6⟩ := geotiff_run_ok env files folder dtype st hr
      exact ⟨h.1 ▸ h2, h.2 ▸ h3, h6⟩
    | some e => rw [hr] at h; simp at h

lemma digitsWindow_cons_succ (c : Char) (cs : List Char) (i : Nat) :
    digitsWindow (c :: cs) (i + 1) = digitsWindow cs i := by
  simp [digitsWindow, List.drop_succ_cons]

lemma searchEight_some_iff :
    ∀ (cs : List Char) (w : List Char),
      searchEightDigits cs = some w ↔
        ∃ i, digitsWindow cs i = true ∧ w = (cs.drop i).take 8 ∧
          ∀ j, j < i → digitsWindow cs j = false := by
  intro cs
  induction cs with
  | nil =>
    intro w
    constructor
    · intro h; simp [searchEightDigits] at h
    · rintro ⟨i, hw, -, -⟩; simp [digitsWindow] at hw
  | cons c rest ih =>
    intro w
    by_cases h0 : digitsWindow (c :: rest) 0 = true
    · constructor
      · intro h
        rw [searchEightDigits, if_pos h0] at h
        injection h with h
        exact ⟨0, h0, by rw [← h]; simp, fun j hj => absurd hj (Nat.not_lt_zero j)⟩
      · rintro ⟨i, hw, hww, hmin⟩
        have hi0 : i = 0 := by
          by_contra hne
          have h0f := hmin 0 (Nat.pos_of_ne_zero hne)
          rw [h0] at h0f
          simp at h0f
        subst hi0
        rw [searchEightDigits, if_pos h0]
        simp [hww]
    · have h0f : digitsWindow (c :: rest) 0 = false := by
        simpa using h0
      constructor
      · intro h
        rw [searchEightDigits, if_neg h0] at h
        obtain ⟨i, hw, hww, hmin⟩ := (ih w).mp h
        refine ⟨i + 1, ?_, ?_, ?_⟩
        · rw [digitsWindow_cons_succ]; exact hw
        · simpa [List.drop_succ_cons] using hww
        · intro j hj
          cases j with
          | zero => exact h0f
          | succ k =>
            rw [digitsWindow_cons_succ]
            exact hmin k (by omega)
      · rintro ⟨i, hw, hww, hmin⟩
        cases i with
        | zero => rw [h0f] at hw; simp at hw
        | succ k =>
          rw [searchEightDigits, if_neg h0]
          refine (ih w).mpr ⟨k, ?_, ?_, ?_⟩
          · rw [← digitsWindow_cons_succ c]; exact hw
          · simpa [List.drop_succ_cons] using hww
          · intro j hj
            rw [← digitsWindow_cons_succ c]
            exact hmin (j + 1) (by omega)

lemma reSearch8_some_iff (s ds : String) :
    reSearch8 s = some ds ↔ isFirstEightDigitSubstring s ds := by
  unfold reSearch8 isFirstEightDigitSubstring
  constructor
  · intro h
    obtain ⟨w, hw, hmk⟩ := Option.map_eq_some'.mp h
    obtain ⟨i, h1, h2, h3⟩ := (searchEight_some_iff s.toList w).mp hw
    exact ⟨i, h1, by rw [← hmk, h2], h3⟩
  · rintro ⟨i, h1, h2, h3⟩
    have : searchEightDigits s.toList = some ((s.toList.drop i).take 8) :=
      (searchEight_some_iff s.toList _).mpr ⟨i, h1, rfl, h3⟩
    rw [Option.map_eq_some']
    exact ⟨_, this, h2.symm⟩

lemma digitsWindow_false_of_noDigits (cs : List Char)
    (h : cs.all (fun c => !(isDigitChar c)) = true) (i : Nat) :
    digitsWindow cs i = false := by
  rw [Bool.eq_false_iff]
  intro hw
  unfold digitsWindow at hw
  rw [Bool.and_eq_true] at hw
  obtain ⟨hlen, hall⟩ := hw
  have hne : ((cs.drop i).take 8) ≠ [] := by
    intro hnil
    rw [hnil] at hlen
    simp at hlen
  obtain ⟨c, hc⟩ := List.exists_mem_of_ne_nil _ hne
  have hdig : isDigitChar c = true := by
    rw [List.all_eq_true] at hall
    exact hall c hc
  have hmem : c ∈ cs := List.drop_subset i cs (List.take_subset _ _ hc)
  rw [List.all_eq_true] at h
  have := h c hmem
  rw [hdig] at this
  simp at this

lemma extract_error_of_no_window (fn : String)
    (h : ∀ i, digitsWindow fn.toList i = false) :
    extract_date_from_filename fn = .error (.dateFormatNotFound fn) := by
  have hs : reSearch8 fn = none := by
    cases hh : reSearch8 fn with
    | none => rfl
    | some ds =>
      obtain ⟨i, hw, -, -⟩ := (reSearch8_some_iff fn ds).mp hh
      rw [h i] at hw
      simp at hw
  simp [extract_date_from_filename, hs]

lemma charToDigit_le (c : Char) (h : isDigitChar c = true) : charToDigit c ≤ 9 := by
  unfold isDigitChar at h
  rw [Bool.and_eq_true, decide_eq_true_iff, decide_eq_true_iff] at h
  unfold charToDigit
  omega

lemma digitsToNat_foldl_lt :
    ∀ (cs : List Char) (a : Nat), cs.all isDigitChar = true →
      cs.foldl (fun a c => 10 * a + charToDigit c) a < (a + 1) * 10 ^ cs.length := by
  intro cs
  induction cs with
  | nil => intro a _; simp
  | cons c rest ih =>
    intro a h
    rw [List.all_cons, Bool.and_eq_true] at h
    have hc := charToDigit_le c h.1
    have hr := ih (10 * a + charToDigit c) h.2
    calc (c :: rest).foldl (fun a c => 10 * a + charToDigit c) a
        = rest.foldl (fun a c => 10 * a + charToDigit c) (10 * a + charToDigit c) := by
          simp [List.foldl_cons]
      _ < (10 * a + charToDigit c + 1) * 10 ^ rest.length := hr
      _ ≤ ((a + 1) * 10) * 10 ^ rest.length := by
          have : 10 * a + charToDigit c + 1 ≤ (a + 1) * 10 := by omega
          exact Nat.mul_le_mul_right _ this
      _ = (a + 1) * 10 ^ (c :: rest).length := by
          rw [List.length_cons, pow_succ]
          ring

lemma digitsToNat_lt (cs : List Char) (h : cs.all isDigitChar = true) :
    digitsToNat cs < 10 ^ cs.length := by
  have := digitsToNat_foldl_lt cs 0 h
  simpa [digitsToNat] using this

lemma all_sublist {cs ds : List Char} (hsub : ∀ c ∈ ds, c ∈ cs)
    (h : cs.all isDigitChar = true) : ds.all isDigitChar = true := by
  rw [List.all_eq_true] at h ⊢
  exact fun c hc => h c (hsub c hc)

lemma daysInMonth_le (y m : Nat) : daysInMonth y m ≤ 31 := by
  unfold daysInMonth
  split_ifs <;> omega

lemma strptimeYmd_bounds (s : String) (d : Ymd) (h : strptimeYmd s = some d) :
    1 ≤ d.year ∧ d.year ≤ 9999 ∧ 1 ≤ d.month ∧ d.month ≤ 12 ∧
      1 ≤ d.day ∧ d.day ≤ 31 := by
  unfold strptimeYmd at h
  dsimp only at h
  split at h
  case isFalse => simp at h
  case isTrue hgate =>
    split at h
    case isFalse => simp at h
    case isTrue hb =>
      rw [Option.some.injEq] at h
      rw [Bool.and_eq_true, beq_iff_eq] at hgate
      have hy : digitsToNat (s.toList.take 4) ≤ 9999 := by
        have hall : (s.toList.take 4).all isDigitChar = true :=
          all_sublist (fun c hc => List.take_subset _ _ hc) hgate.2
        have hlt := digitsToNat_lt _ hall
        have hlen : (s.toList.take 4).length = 4 := by
          rw [List.length_take]
          omega
        rw [hlen] at hlt
        omega
      have hdm := daysInMonth_le (digitsToNat (s.toList.take 4))
        (digitsToNat ((s.toList.drop 4).take 2))
      rw [← h]
      exact ⟨hb.1, hy, hb.2.1, hb.2.2.1, hb.2.2.2.1, le_trans hb.2.2.2.2 hdm⟩

set_option maxHeartbeats 1000000 in
lemma monthOffsetTable_le (m : Nat) : monthOffsetTable m ≤ 334 := by
  unfold monthOffsetTable
  split_ifs <;> omega

lemma tm_yday_le (d : Ymd) (_hm : d.month ≤ 12) (hd : d.day ≤ 31) :
    tm_yday d ≤ 366 := by
  have hoff := monthOffsetTable_le d.month
  unfold tm_yday
  split_ifs <;> omega

lemma tm_yday_pos (d : Ymd) (hd : 1 ≤ d.day) : 1 ≤ tm_yday d := by
  unfold tm_yday
  omega

lemma pyNatRepr_len_one (n : Nat) (h : n < 10) : (pyNatRepr n).length = 1 := by
  unfold pyNatRepr
  rw [if_pos h]
  rfl

lemma pyNatRepr_len_two (n : Nat) (h1 : 10 ≤ n) (h2 : n < 100) :
    (pyNatRepr n).length = 2 := by
  unfold pyNatRepr
  rw [if_neg (by omega), if_pos h2]
  rfl

lemma pyNatRepr_len_three (n : Nat) (h1 : 100 ≤ n) (h2 : n < 1000) :
    (pyNatRepr n).length = 3 := by
  unfold pyNatRepr
  rw [if_neg (by omega), if_neg (by omega), if_pos h2]
  rfl

lemma pyNatRepr_len_four (n : Nat) (h1 : 1000 ≤ n) (h2 : n ≤ 9999) :
    (pyNatRepr n).length = 4 := by
  unfold pyNatRepr
  rw [if_neg (by omega), if_neg (by omega), if_neg (by omega), if_pos (by omega)]
  rfl

lemma pad3_len_three (n : Nat) (h : n ≤ 999) : (pad3 n).length = 3 := by
  unfold pad3
  split_ifs with ha hb
  · rw [String.length_append, pyNatRepr_len_one n ha]
    rfl
  · rw [String.length_append, pyNatRepr_len_two n (by omega) hb]
    rfl
  · exact pyNatRepr_len_three n (by omega) (by omega)

lemma token_len_seven (d : Ymd) (hy1 : 1000 ≤ d.year) (hy2 : d.year ≤ 9999)
    (hm : d.month ≤ 12) (hd : d.day ≤ 31) :
    (pyNatRepr d.year ++ pad3 (tm_yday d)).length = 7 := by
  rw [String.length_append, pyNatRepr_len_four d.year hy1 hy2,
    pad3_len_three (tm_yday d) (by have := tm_yday_le d hm hd; omega)]

lemma toList_append (a b : String) : (a ++ b).toList = a.toList ++ b.toList := by
  simp [String.toList, String.data_append]

lemma splitlinesAux_line :
    ∀ (xs acc rest : List Char), (∀ c ∈ xs, isLineBoundary c = false) →
      splitlinesAux (xs ++ '\n' :: rest) acc =
        String.mk (acc.reverse ++ xs) :: splitlinesAux rest [] := by
  intro xs
  induction xs with
  | nil =>
    intro acc rest _
    cases rest with
    | nil => simp [splitlinesAux, isLineBoundary]
    | cons d rest2 => simp [splitlinesAux, isLineBoundary]
  | cons x xs ih =>
    intro acc rest h
    have hx : isLineBoundary x = false := h x (List.mem_cons_self x xs)
    have hxs : ∀ c ∈ xs, isLineBoundary c = false :=
      fun c hc => h c (List.mem_cons_of_mem x hc)
    rw [List.cons_append, splitlinesAux.eq_def]
    dsimp only
    rw [hx]
    simp only [Bool.false_eq_true, if_false]
    rw [ih (x :: acc) rest hxs]
    simp [List.append_assoc]

lemma read_save_roundtrip :
    ∀ (lines : List String),
      (∀ l ∈ lines, ∀ c ∈ l.toList, isLineBoundary c = false) →
      read_file_list (save_list_to_file lines) = lines := by
  intro lines
  induction lines with
  | nil => intro _; simp [read_file_list, pySplitlines, save_list_to_file, splitlinesAux]
  | cons l ls ih =>
    intro h
    have hsave : save_list_to_file (l :: ls) = l ++ ("\n" ++ save_list_to_file ls) := by
      simp [save_list_to_file, String.append_assoc]
    unfold read_file_list pySplitlines
    rw [hsave, toList_append, toList_append]
    have hnl : ("\n" : String).toList = ['\n'] := rfl
    rw [hnl]
    rw [List.cons_append, List.nil_append]
    rw [splitlinesAux_line l.toList [] (save_list_to_file ls).toList
      (h l (List.mem_cons_self l ls))]
    have hmk : String.mk ((([] : List Char)).reverse ++ l.toList) = l := by
      simp [String.toList]
    rw [hmk]
    have := ih (fun m hm => h m (List.mem_cons_of_mem l hm))
    unfold read_file_list pySplitlines at this
    rw [this]

lemma geotiff_first_error (env : GdalEnv) (folder dtype p : String)
    (rest : List String) (e : ConvError) (hd : dtype ∈ supportedDtypes)
    (hext : extract_date_from_filename (basename p) = .error e) :
    geotiff_to_envi env (p :: rest) folder dtype = .error e := by
  unfold geotiff_to_envi geotiff_to_envi_run
  rw [if_pos hd, runLoop, processFile_extract_error env folder initState p e hext]

/-- Claim C1: if the conversion of any file in the batch fails, `main`
prints a diagnostic, returns normally (the embedding is a total function,
mirroring the `except` arms that `print` and `return`), and writes neither
manifest; a missing list file likewise only prints a diagnostic; and the
manifests `ENVI_file_list.txt` and `time_vector.txt` are written exactly
when `geotiff_to_envi` returned successfully, i.e. after the loop over
every input completed. -/
theorem c1_failure_writes_no_manifest (menv : MainEnv)
    (flp folder dtype : String) :
    (∀ content e, menv.fileListContent = some content →
      geotiff_to_envi menv.gdal (read_file_list content) folder dtype = .error e →
      (main menv flp folder dtype).wroteFileList = none ∧
      (main menv flp folder dtype).wroteTimeVector = none ∧
      (main menv flp folder dtype).printed =
        ["An error occurred during conversion: " ++ errMsg e]) ∧
    (menv.fileListContent = none →
      (main menv flp folder dtype).wroteFileList = none ∧
      (main menv flp folder dtype).wroteTimeVector = none ∧
      (main menv flp folder dtype).printed =
        ["Error: The file list at " ++ flp ++ " was not found. Exiting."]) ∧
    (∀ pc, ((main menv flp folder dtype).wroteFileList = some pc ∨
            (main menv flp folder dtype).wroteTimeVector = some pc) →
      ∃ content outs times,
        menv.fileListContent = some content ∧
        geotiff_to_envi menv.gdal (read_file_list content) folder dtype =
          .ok (outs, times) ∧
        (main menv flp folder dtype).wroteFileList =
          some (pathJoin folder "ENVI_file_list.txt", save_list_to_file outs) ∧
        (main menv flp folder dtype).wroteTimeVector =
          some (pathJoin folder "time_vector.txt", save_list_to_file times)) := by
  refine ⟨?_, ?_, ?_⟩
  · intro content e hc he
    simp [main, hc, he]
  · intro hc
    simp [main, hc]
  · intro pc hpc
    cases hc : menv.fileListContent with
    | none => simp [main, hc] at hpc
    | some content =>
      cases hg : geotiff_to_envi menv.gdal (read_file_list content) folder dtype with
      | error e => simp [main, hc, hg] at hpc
      | ok pr =>
        obtain ⟨outs, times⟩ := pr
        exact ⟨content, outs, times, rfl, hg, by simp [main, hc, hg],
          by simp [main, hc, hg]⟩

/-- Witness for C1 at a concrete failing batch. -/
theorem c1_witness :
    (main ⟨some "a20230101.tif\n", envOpenFail⟩ "list.txt" "out" "float32").wroteFileList
      = none ∧
    (main ⟨some "a20230101.tif\n", envOpenFail⟩ "list.txt" "out" "float32").wroteTimeVector
      = none ∧
    (main ⟨some "a20230101.tif\n", envOpenFail⟩ "list.txt" "out" "float32").printed =
      ["An error occurred during conversion: " ++
        errMsg (.sourceOpenFailure "a20230101.tif")] :=
  (c1_failure_writes_no_manifest ⟨some "a20230101.tif\n", envOpenFail⟩
      "list.txt" "out" "float32").1
    "a20230101.tif\n" (.sourceOpenFailure "a20230101.tif") rfl (by decide)

/-- Counterexample to claim C2: with a single input whose `gdal.Open`
fails, the loop raises `FileNotFoundError`, yet at that moment both
accumulated sequences already hold the entry for the failed file — the
appends at source lines 58 and 63 happen before the open at line 66, not
after a successful conversion. -/
theorem c2_counterexample :
    (geotiff_to_envi_run envOpenFail ["a20230101.tif"] "out" "float32").2 =
      some (.sourceOpenFailure "a20230101.tif") ∧
    (geotiff_to_envi_run envOpenFail ["a20230101.tif"] "out" "float32").1.time_vector =
      ["2023001"] ∧
    (geotiff_to_envi_run envOpenFail ["a20230101.tif"] "out" "float32").1.output_files =
      ["out/a20230101.img"] := by
  decide

/-- Claim C2 (amended): for every input file the date token and the
destination path are appended to the accumulators right after date
extraction succeeds and before the source file is opened (so a file whose
conversion fails at open/driver/create does have entries in the local
lists); when date extraction fails nothing is appended; and since any
failure makes `geotiff_to_envi` raise, the returned sequences exist only
on full success, where they hold exactly one entry per input in input
order. -/
theorem c2_append_before_open (env : GdalEnv) (folder : String) :
    (∀ st p e, extract_date_from_filename (basename p) = .error e →
      processFile env folder st p = (st, some e)) ∧
    (∀ st p t, extract_date_from_filename (basename p) = .ok t →
      (processFile env folder st p).1.time_vector = st.time_vector ++ [t] ∧
      (processFile env folder st p).1.output_files =
        st.output_files ++ [destPath folder p]) ∧
    (∀ files dtype outs times,
      geotiff_to_envi env files folder dtype = .ok (outs, times) →
      outs = files.map (destPath folder) ∧ times = files.map dateTokenOf) := by
  refine ⟨?_, ?_, ?_⟩
  · intro st p e h
    exact processFile_extract_error env folder st p e h
  · intro st p t h
    exact processFile_extract_ok_fields env folder st p t h
  · intro files dtype outs times h
    have := geotiff_to_envi_ok env files folder dtype outs times h
    exact ⟨this.1, this.2.1⟩

/-- Witness for the amended C2 at a concrete input. -/
theorem c2_witness :
    (processFile envOpenFail "out" initState "a20230101.tif").1.time_vector =
      initState.time_vector ++ ["2023001"] ∧
    (processFile envOpenFail "out" initState "a20230101.tif").1.output_files =
      initState.output_files ++ [destPath "out" "a20230101.tif"] :=
  (c2_append_before_open envOpenFail "out").2.1 initState "a20230101.tif"
    "2023001" (by decide)

/-- Claim C3: on a batch that succeeds, the two returned lists have equal
lengths, equal to the number of non-empty lines of the list file — and in
fact equal to the total number of lines, every line being non-empty on a
successful run. -/
theorem c3_lengths (env : GdalEnv) (content folder dtype : String)
    (outs times : List String)
    (h : geotiff_to_envi env (read_file_list content) folder dtype =
      .ok (outs, times)) :
    outs.length = times.length ∧
    times.length = ((read_file_list content).filter (fun l => l != "")).length ∧
    times.length = (read_file_list content).length := by
  obtain ⟨ho, ht, hx⟩ :=
    geotiff_to_envi_ok env (read_file_list content) folder dtype outs times h
  have hne : ∀ p ∈ read_file_list content, (p != "") = true := by
    intro p hp
    obtain ⟨t, hext⟩ := hx p hp
    by_contra hne
    have hp0 : p = "" := by simpa using hne
    rw [hp0] at hext
    have hempty : extract_date_from_filename (basename "") =
        .error (.dateFormatNotFound "") := by decide
    rw [hempty] at hext
    exact Except.noConfusion hext
  refine ⟨?_, ?_, ?_⟩
  · rw [ho, ht]; simp
  · rw [List.filter_eq_self.mpr hne, ht]; simp
  · rw [ht]; simp

/-- Witness for C3 at a concrete successful batch. -/
theorem c3_witness :
    (["out/a20230101.img", "out/b20230102.img"] : List String).length =
      (["2023001", "2023002"] : List String).length ∧
    (["2023001", "2023002"] : List String).length =
      ((read_file_list "a20230101.tif\nb20230102.tif\n").filter
        (fun l => l != "")).length ∧
    (["2023001", "2023002"] : List String).length =
      (read_file_list "a20230101.tif\nb20230102.tif\n").length :=
  c3_lengths envAllOk "a20230101.tif\nb20230102.tif\n" "out" "float32"
    ["out/a20230101.img", "out/b20230102.img"] ["2023001", "2023002"] (by decide)

/-- Claim C4: date-token derivation is a pure function of the filename;
`"scene_20230405_x.tif"` yields `"2023095"`; the searched match is
exactly the first 8-digit substring of the argument (which the loop passes
the basename to); and whenever that substring parses as a calendar date
the token is the year rendered in decimal followed by the zero-padded
day of year. -/
theorem c4_token_derivation :
    extract_date_from_filename "scene_20230405_x.tif" = .ok "2023095" ∧
    (∀ fn ds, reSearch8 fn = some ds ↔ isFirstEightDigitSubstring fn ds) ∧
    (∀ fn ds d, isFirstEightDigitSubstring fn ds → strptimeYmd ds = some d →
      extract_date_from_filename fn = .ok (pyNatRepr d.year ++ pad3 (tm_yday d))) := by
  refine ⟨by decide, reSearch8_some_iff, ?_⟩
  intro fn ds d h1 h2
  unfold extract_date_from_filename
  rw [(reSearch8_some_iff fn ds).mpr h1]
  simp [h2]

/-- Witness for C4 at a concrete filename. -/
theorem c4_witness :
    extract_date_from_filename "a20230405.tif" =
      .ok (pyNatRepr (Ymd.mk 2023 4 5).year ++ pad3 (tm_yday (Ymd.mk 2023 4 5))) :=
  c4_token_derivation.2.2 "a20230405.tif" "20230405" (Ymd.mk 2023 4 5)
    ⟨1, by decide, by decide, by
      intro j hj
      have hj0 : j = 0 := by omega
      subst hj0
      decide⟩
    (by decide)

/-- Counterexample to claim C5: `"00991231"` parses as the valid date
0099-12-31, yet the token is `"99365"` — the year is rendered by `f"{y}"`
without zero padding, so the token has five characters, not seven. -/
theorem c5_counterexample :
    extract_date_from_filename "00991231.tif" = .ok "99365" ∧
    ("99365" : String).length ≠ 7 := by
  decide

/-- Claim C5 (amended): for every filename whose first 8-digit substring
parses as a valid date *with year at least 1000* (no leading zero in the
year field), the token is a 7-character string: the 4-digit year followed
by the 3-digit zero-padded day of year. -/
theorem c5_token_shape (fn ds : String) (d : Ymd)
    (h1 : reSearch8 fn = some ds) (h2 : strptimeYmd ds = some d)
    (h3 : 1000 ≤ d.year) :
    extract_date_from_filename fn = .ok (pyNatRepr d.year ++ pad3 (tm_yday d)) ∧
    (pyNatRepr d.year ++ pad3 (tm_yday d)).length = 7 ∧
    (pyNatRepr d.year).length = 4 ∧
    (pad3 (tm_yday d)).length = 3 := by
  obtain ⟨hy1, hy2, hm1, hm2, hd1, hd2⟩ := strptimeYmd_bounds ds d h2
  refine ⟨?_, ?_, ?_, ?_⟩
  · unfold extract_date_from_filename
    rw [h1]
    simp [h2]
  · exact token_len_seven d h3 hy2 hm2 hd2
  · exact pyNatRepr_len_four d.year h3 hy2
  · exact pad3_len_three _ (by have := tm_yday_le d hm2 hd2; omega)

/-- Witness for the amended C5 at a concrete filename. -/
theorem c5_witness :
    extract_date_from_filename "a20230405.tif" =
      .ok (pyNatRepr (Ymd.mk 2023 4 5).year ++ pad3 (tm_yday (Ymd.mk 2023 4 5))) ∧
    (pyNatRepr (Ymd.mk 2023 4 5).year ++ pad3 (tm_yday (Ymd.mk 2023 4 5))).length = 7 ∧
    (pyNatRepr (Ymd.mk 2023 4 5).year).length = 4 ∧
    (pad3 (tm_yday (Ymd.mk 2023 4 5))).length = 3 :=
  c5_token_shape "a20230405.tif" "20230405" (Ymd.mk 2023 4 5)
    (by decide) (by decide) (by decide)

/-- Claim C6: a filename with no run of 8 consecutive digits makes date
extraction raise the "date format not found" `ValueError`; the search runs
on the basename, so a batch whose first path has a digit-free basename
aborts with that error even when the directory part of the path contains
eight digits. -/
theorem c6_no_eight_digit_run (path : String)
    (h : ∀ i, digitsWindow (basename path).toList i = false) :
    extract_date_from_filename (basename path) =
      .error (.dateFormatNotFound (basename path)) ∧
    ∀ env folder dtype (rest : List String), dtype ∈ supportedDtypes →
      geotiff_to_envi env (path :: rest) folder dtype =
        .error (.dateFormatNotFound (basename path)) := by
  have hext := extract_error_of_no_window (basename path) h
  exact ⟨hext, fun env folder dtype rest hd =>
    geotiff_first_error env folder dtype path rest _ hd hext⟩

/-- Witness for C6: the basename `clean.tif` holds no digits while the
full path contains `20230101`. -/
theorem c6_witness :
    extract_date_from_filename (basename "/archive/20230101/clean.tif") =
      .error (.dateFormatNotFound (basename "/archive/20230101/clean.tif")) ∧
    geotiff_to_envi envAllOk ["/archive/20230101/clean.tif"] "out" "float32" =
      .error (.dateFormatNotFound (basename "/archive/20230101/clean.tif")) := by
  have h := c6_no_eight_digit_run "/archive/20230101/clean.tif"
    (digitsWindow_false_of_noDigits _ (by decide))
  exact ⟨h.1, h.2 envAllOk "out" "float32" [] (by decide)⟩

/-- Claim C7: any `output_dtype` other than the three supported strings
makes `geotiff_to_envi` raise the "unsupported data type" `ValueError`
before the loop starts: the final state is the initial one, no `gdal.Open`
call was logged, and the error is the dtype error whatever the inputs. -/
theorem c7_unsupported_dtype (env : GdalEnv) (files : List String)
    (folder dtype : String) (h : dtype ∉ supportedDtypes) :
    geotiff_to_envi_run env files folder dtype =
      (initState, some (.unsupportedDtype dtype)) ∧
    (geotiff_to_envi_run env files folder dtype).1.opened = [] ∧
    geotiff_to_envi env files folder dtype = .error (.unsupportedDtype dtype) := by
  have h1 : geotiff_to_envi_run env files folder dtype =
      (initState, some (.unsupportedDtype dtype)) := by
    unfold geotiff_to_envi_run
    rw [if_neg h]
  refine ⟨h1, ?_, by unfold geotiff_to_envi; rw [h1]⟩
  rw [h1]
  rfl

/-- Witness for C7 with dtype `float64`. -/
theorem c7_witness :
    geotiff_to_envi_run envAllOk ["a20230101.tif"] "out" "float64" =
      (initState, some (.unsupportedDtype "float64")) ∧
    (geotiff_to_envi_run envAllOk ["a20230101.tif"] "out" "float64").1.opened = [] ∧
    geotiff_to_envi envAllOk ["a20230101.tif"] "out" "float64" =
      .error (.unsupportedDtype "float64") :=
  c7_unsupported_dtype envAllOk ["a20230101.tif"] "out" "float64" (by decide)

/-- Claim C8: on a successful batch, every destination path is the output
directory joined with the source basename whose extension is replaced by
`.img` — no intermediate subdirectories are inserted. -/
theorem c8_destination_paths (env : GdalEnv) (files : List String)
    (folder dtype : String) (outs times : List String)
    (h : geotiff_to_envi env files folder dtype = .ok (outs, times)) :
    outs = files.map (fun p => pathJoin folder (splitextRoot (basename p) ++ ".img")) := by
  have := (geotiff_to_envi_ok env files folder dtype outs times h).1
  simpa [destPath] using this

/-- Witness for C8 at a concrete successful batch. -/
theorem c8_witness :
    (["out/a20230101.img"] : List String) =
      (["dir/sub/a20230101.tif"] : List String).map
        (fun p => pathJoin "out" (splitextRoot (basename p) ++ ".img")) :=
  c8_destination_paths envAllOk ["dir/sub/a20230101.tif"] "out" "float32"
    ["out/a20230101.img"] ["2023001"] (by decide)

/-- Claim C9: `read_file_list` keeps blank lines (reading back what
`save_list_to_file` writes reproduces every line, empty ones included);
the empty basename of an empty line has no 8-digit run, so its extraction
raises "date format not found"; hence a batch containing an empty entry
can never succeed, and when the empty entry comes first the batch aborts
with exactly that error. -/
theorem c9_blank_lines_abort :
    (∀ lines : List String,
      (∀ l ∈ lines, ∀ c ∈ l.toList, isLineBoundary c = false) →
      read_file_list (save_list_to_file lines) = lines) ∧
    extract_date_from_filename (basename "") =
      .error (.dateFormatNotFound "") ∧
    (∀ env (files : List String) folder dtype outs times, "" ∈ files →
      geotiff_to_envi env files folder dtype ≠ .ok (outs, times)) ∧
    (∀ env folder dtype (rest : List String), dtype ∈ supportedDtypes →
      geotiff_to_envi env ("" :: rest) folder dtype =
        .error (.dateFormatNotFound "")) := by
  have hempty : extract_date_from_filename (basename "") =
      .error (.dateFormatNotFound "") := by decide
  refine ⟨read_save_roundtrip, hempty, ?_, ?_⟩
  · intro env files folder dtype outs times hmem h
    obtain ⟨-, -, hx⟩ := geotiff_to_envi_ok env files folder dtype outs times h
    obtain ⟨t, hext⟩ := hx "" hmem
    rw [hempty] at hext
    exact Except.noConfusion hext
  · intro env folder dtype rest hd
    exact geotiff_first_error env folder dtype "" rest _ hd hempty

/-- Witness for C9 at concrete inputs with an embedded blank line. -/
theorem c9_witness :
    read_file_list (save_list_to_file ["a.tif", "", "b.tif"]) =
      ["a.tif", "", "b.tif"] ∧
    geotiff_to_envi envAllOk ["a20230101.tif", ""] "out" "float32" ≠
      .ok (["out/a20230101.img"], ["2023001"]) ∧
    geotiff_to_envi envAllOk [""] "out" "float32" =
      .error (.dateFormatNotFound "") :=
  ⟨c9_blank_lines_abort.1 ["a.tif", "", "b.tif"] (by decide),
   c9_blank_lines_abort.2.2.1 envAllOk ["a20230101.tif", ""] "out" "float32"
     ["out/a20230101.img"] ["2023001"] (by decide),
   c9_blank_lines_abort.2.2.2 envAllOk "out" "float32" [] (by decide)⟩

/-- Claim C10: two distinct input paths sharing a basename map to the same
destination path; on a successful batch the returned list carries that
identical path at both positions, and the `Create` log shows the same
destination created at both iterations — the later creation writes over
the output of the earlier one. -/
theorem c10_basename_collision (p q folder : String) (_hpq : p ≠ q)
    (hb : basename p = basename q) :
    destPath folder p = destPath folder q ∧
    ∀ (env : GdalEnv) (files : List String) (dtype : String) (st : LoopState)
      (i j : Nat),
      geotiff_to_envi_run env files folder dtype = (st, none) →
      files[i]? = some p → files[j]? = some q →
      st.output_files[i]? = some (destPath folder p) ∧
      st.output_files[j]? = some (destPath folder p) ∧
      st.created[i]? = some (destPath folder p) ∧
      st.created[j]? = some (destPath folder p) := by
  have hdp : destPath folder p = destPath folder q := by
    unfold destPath
    rw [hb]
  refine ⟨hdp, ?_⟩
  intro env files dtype st i j hrun hi hj
  obtain ⟨-, ho, -, -, hc, -⟩ := geotiff_run_ok env files folder dtype st hrun
  rw [ho, hc, List.getElem?_map, List.getElem?_map, hi, hj]
  simp [hdp]

/-- Witness for C10: two paths with the same basename in one successful
batch, both mapped to `out/x20230101.img`. -/
theorem c10_witness :
    destPath "out" "a/x20230101.tif" = destPath "out" "b/x20230101.tif" ∧
    (⟨["out/x20230101.img", "out/x20230101.img"], ["2023001", "2023001"],
      ["a/x20230101.tif", "b/x20230101.tif"],
      ["out/x20230101.img", "out/x20230101.img"]⟩ : LoopState).output_files[0]? =
      some (destPath "out" "a/x20230101.tif") := by
  have h := c10_basename_collision "a/x20230101.tif" "b/x20230101.tif" "out"
    (by decide) (by decide)
  refine ⟨h.1, ?_⟩
  exact (h.2 envAllOk ["a/x20230101.tif", "b/x20230101.tif"] "float32"
    ⟨["out/x20230101.img", "out/x20230101.img"], ["2023001", "2023001"],
      ["a/x20230101.tif", "b/x20230101.tif"],
      ["out/x20230101.img", "out/x20230101.img"]⟩ 0 1 (by decide) (by decide)
    (by decide)).1

end G2E
